import Mathlib

/-!
Shallow embedding of the driver-finance backend (FastAPI + SQLAlchemy) core:
the category/transaction data model, the repository layer
(`app/repositories/base.py`, `category_repository.py`, `transaction_repository.py`),
the transaction service (`app/services/transaction_service.py`), the analytics
service (`app/services/analytics_service.py`) and the category API endpoints
(`app/api/v1/endpoints/categories.py`).

Conventions of the embedding:
* the relational store is a pair of lists (`DB`); a row's `id` is its primary
  key, so well-formed stores have pairwise distinct ids per table;
* `Numeric(10,2)` amounts are integer cents (`Int`) — the SQL layer computes
  sums exactly on numerics; the single average is an exact rational (`ℚ`);
* `datetime` values are a calendar structure `DT` ordered lexicographically;
* a pydantic update schema distinguishes "field absent from the request"
  (outer `none`, dropped by `model_dump(exclude_unset=True)`) from "field
  explicitly null" (`some none`) on nullable columns; attribute access on the
  schema object flattens the two, which the embedding renders as `Option.join`;
* `HTTPException` raised by service/endpoint code becomes `Except ApiError`,
  with the session state threaded through explicitly where code can mutate it.
-/

namespace DriverFinance

/-- Transaction/category type enumeration (values `income` / `expense`);
`TransactionType` and `CategoryType` in the source are identical `str` enums. -/
inductive TxType where
  | income
  | expense
deriving DecidableEq, Repr

/-- A timezone-aware timestamp, reduced to the fields the code inspects:
calendar year, month, day (for `extract`/`cast(..., Date)`) and the remaining
time of day in seconds (so that full-timestamp comparisons are faithful). -/
structure DT where
  year : Nat
  month : Nat
  day : Nat
  tod : Nat
deriving DecidableEq, Repr

/-- Lexicographic order on timestamps, the order the store uses for
`transaction_date >= start` / `transaction_date <= end` comparisons. -/
def dtLe (a b : DT) : Bool :=
  if a.year ≠ b.year then a.year < b.year
  else if a.month ≠ b.month then a.month < b.month
  else if a.day ≠ b.day then a.day < b.day
  else a.tod ≤ b.tod

/-- Row of the `categories` table (`app/models/category.py`).
`user_id = none` means a system-wide category. -/
structure Category where
  id : Nat
  user_id : Option Nat
  name : String
  type : TxType
  color : String
  icon : Option String
  is_system : Bool
deriving DecidableEq, Repr

/-- Row of the `transactions` table (`app/models/transaction.py`).
`amount` is in integer cents (`Numeric(10,2)` scaled by 100). -/
structure Transaction where
  id : Nat
  user_id : Nat
  category_id : Option Nat
  type : TxType
  amount : Int
  description : Option String
  transaction_date : DT
deriving DecidableEq, Repr

/-- The relational store: the two tables the core logic touches. -/
structure DB where
  categories : List Category
  transactions : List Transaction
deriving DecidableEq, Repr

/-- Outcome of a raised `HTTPException`, by status code and detail message. -/
inductive ApiError where
  | notFound (detail : String)
  | forbidden (detail : String)
  | badRequest (detail : String)
deriving DecidableEq, Repr

/-- Whether an error is a 404 (not-found) outcome. -/
def ApiError.is404 : ApiError → Bool
  | .notFound _ => true
  | _ => false

/-- Whether an error is a 403 (forbidden) outcome. -/
def ApiError.is403 : ApiError → Bool
  | .forbidden _ => true
  | _ => false

/-- Python truthiness of an optional integer: `None` and `0` are falsy.
`if transaction_data.category_id:` in the source tests exactly this. -/
def truthyOptNat : Option Nat → Bool
  | none => false
  | some n => n ≠ 0

namespace CategoryRepo

/-- `BaseRepository.get_by_id` specialised to categories: the row whose
primary key matches, if any. -/
def get_by_id (db : DB) (cid : Nat) : Option Category :=
  db.categories.find? (fun c => c.id == cid)

/-- The two-branch visibility predicate of the spec: a category is visible to
user `u` when `category.user_id == u` or `category.is_system == true`. -/
def visibleTo (u : Nat) (c : Category) : Bool :=
  c.user_id == some u || c.is_system

/-- `CategoryRepository.get_by_user_and_name`: the collision lookup used
before creating or renaming a category. The SQL `WHERE` clause is
`user_id == u AND name == name AND type == type` — note it has no
`is_system` branch, and `user_id == u` never matches a NULL `user_id`. -/
def get_by_user_and_name (db : DB) (u : Nat) (name : String) (ty : TxType) :
    Option Category :=
  db.categories.find? (fun c =>
    c.user_id == some u && c.name == name && c.type == ty)

/-- `CategoryRepository.get_user_categories`: rows satisfying the visibility
OR-predicate, with `offset skip` / `limit limit` pagination. -/
def get_user_categories (db : DB) (u : Nat) (skip : Nat := 0)
    (limit : Nat := 100) : List Category :=
  ((db.categories.filter (visibleTo u)).drop skip).take limit

/-- `CategoryRepository.get_by_type`: visible rows of the requested type. -/
def get_by_type (db : DB) (u : Nat) (ty : TxType) : List Category :=
  db.categories.filter (fun c => visibleTo u c && c.type == ty)

/-- `BaseRepository.delete` applied to a `Category`. The ORM relationship
`Category.transactions` is declared `cascade="all, delete-orphan"`
(`app/models/category.py`), so `session.delete(category)` also deletes every
transaction in the category's collection — the `ondelete="SET NULL"` foreign
key never fires because the child rows are deleted first by the ORM. -/
def delete (db : DB) (cid : Nat) : Option Category × DB :=
  match db.categories.find? (fun c => c.id == cid) with
  | none => (none, db)
  | some c =>
      (some c,
        { db with
          categories := db.categories.filter (fun x => !(x.id == cid)),
          transactions := db.transactions.filter (fun t => !(t.category_id == some cid)) })

end CategoryRepo

/-- `TransactionCreate` schema (`app/schemas/transaction.py`): the payload of
a create request. `category_id : Optional[int] = None`. -/
structure TransactionCreate where
  type : TxType
  amount : Int
  description : Option String
  transaction_date : DT
  category_id : Option Nat
deriving DecidableEq, Repr

/-- `TransactionUpdate` schema: every field optional. The outer `Option` is
pydantic's fields-set mask (`none` = absent from the request, dropped by
`model_dump(exclude_unset=True)`); for the nullable columns `description` and
`category_id` the inner `Option` is the submitted value, so `some none` is an
explicit null. Explicitly nulling a non-nullable column is rejected by the
store's NOT NULL constraints and is outside this model. -/
structure TransactionUpdate where
  type : Option TxType := none
  amount : Option Int := none
  description : Option (Option String) := none
  transaction_date : Option DT := none
  category_id : Option (Option Nat) := none
deriving DecidableEq, Repr

/-- The update request whose change-set is empty (no field present). -/
def TransactionUpdate.empty : TransactionUpdate := {}

/-- The `for field, value in update_data.items(): setattr(db_obj, field, value)`
loop of `BaseRepository.update`: assign exactly the fields present in
`model_dump(exclude_unset=True)`, keep the rest. -/
def applyTransactionUpdate (t : Transaction) (u : TransactionUpdate) : Transaction :=
  { t with
    type := u.type.getD t.type
    amount := u.amount.getD t.amount
    description := u.description.getD t.description
    transaction_date := u.transaction_date.getD t.transaction_date
    category_id := u.category_id.getD t.category_id }

namespace TransactionRepo

/-- `BaseRepository.get_by_id` specialised to transactions. -/
def get_by_id (db : DB) (tid : Nat) : Option Transaction :=
  db.transactions.find? (fun t => t.id == tid)

/-- The serial primary key the store assigns to a newly inserted row. -/
def freshId (db : DB) : Nat :=
  db.transactions.foldr (fun t m => max t.id m) 0 + 1

/-- `TransactionRepository.create`: builds the row from the payload with
`user_id` stamped to the given user and inserts it. -/
def create (db : DB) (d : TransactionCreate) (uid : Nat) : Transaction × DB :=
  let t : Transaction :=
    { id := freshId db
      user_id := uid
      category_id := d.category_id
      type := d.type
      amount := d.amount
      description := d.description
      transaction_date := d.transaction_date }
  (t, { db with transactions := db.transactions ++ [t] })

/-- `BaseRepository.update` specialised to transactions: `None` (row and
store untouched) when the id is unknown, otherwise the row with the present
fields assigned. With distinct primary keys the pointwise map touches exactly
the fetched row, as the ORM identity map does. -/
def update (db : DB) (tid : Nat) (u : TransactionUpdate) :
    Option Transaction × DB :=
  match db.transactions.find? (fun t => t.id == tid) with
  | none => (none, db)
  | some t =>
      (some (applyTransactionUpdate t u),
        { db with transactions :=
            db.transactions.map (fun x =>
              if x.id == tid then applyTransactionUpdate x u else x) })

/-- `BaseRepository.delete` specialised to transactions. -/
def delete (db : DB) (tid : Nat) : Option Transaction × DB :=
  match db.transactions.find? (fun t => t.id == tid) with
  | none => (none, db)
  | some t =>
      (some t, { db with transactions := db.transactions.filter (fun x => !(x.id == tid)) })

/-- The rows of one user with one transaction type — the `WHERE` clause shared
by the aggregate queries. -/
def rowsByType (db : DB) (uid : Nat) (ty : TxType) : List Transaction :=
  db.transactions.filter (fun t => t.user_id == uid && t.type == ty)

/-- `TransactionRepository.get_total_by_type`:
`coalesce(sum(amount), 0)` over one user's rows of one type, in cents. -/
def get_total_by_type (db : DB) (uid : Nat) (ty : TxType) : Int :=
  ((rowsByType db uid ty).map (fun t => t.amount)).sum

/-- `TransactionRepository.get_user_balance`: the income sum minus the
expense sum, each `coalesce`d to zero. -/
def get_user_balance (db : DB) (uid : Nat) : Int :=
  get_total_by_type db uid .income - get_total_by_type db uid .expense

end TransactionRepo

/-- The `{total_income, total_expenses, balance}` record of
`TransactionService.get_summary`, in cents. -/
structure Summary where
  total_income : Int
  total_expenses : Int
  balance : Int
deriving DecidableEq, Repr

namespace TransactionService

/-- `TransactionService.get_transaction`: fetch by id, 404 when no row has
that id, 403 when the row belongs to another user. -/
def get_transaction (db : DB) (tid : Nat) (uid : Nat) :
    Except ApiError Transaction :=
  match TransactionRepo.get_by_id db tid with
  | none => .error (.notFound "Transaction not found")
  | some t =>
      if t.user_id ≠ uid then
        .error (.forbidden "Transaction does not belong to this user")
      else
        .ok t

/-- `TransactionService.create_transaction`. The guard in the source is
`if transaction_data.category_id:` — Python truthiness, false for both `None`
and `0` — and only then resolves the category and checks that it is global
(`user_id is None`) or owned by the requesting user. -/
def create_transaction (db : DB) (d : TransactionCreate) (uid : Nat) :
    Except ApiError (Transaction × DB) :=
  if truthyOptNat d.category_id then
    match CategoryRepo.get_by_id db (d.category_id.getD 0) with
    | none => .error (.notFound "Category not found")
    | some c =>
        if c.user_id.isSome && c.user_id ≠ some uid then
          .error (.forbidden "Category does not belong to this user")
        else
          .ok (TransactionRepo.create db d uid)
  else
    .ok (TransactionRepo.create db d uid)

/-- `TransactionService.update_transaction`: resolve and ownership-check the
transaction first (404/403 as in `get_transaction`), then — only when the
schema attribute `transaction_data.category_id` reads as a non-`None` value,
i.e. the join of the fields-set mask and the submitted value — validate the
new category with the same rule as create, then delegate to the repository
partial update. Failures leave the store untouched. -/
def update_transaction (db : DB) (tid : Nat) (d : TransactionUpdate)
    (uid : Nat) : Except ApiError (Option Transaction) × DB :=
  match get_transaction db tid uid with
  | .error e => (.error e, db)
  | .ok _ =>
      match d.category_id.join with
      | some cid =>
          match CategoryRepo.get_by_id db cid with
          | none => (.error (.notFound "Category not found"), db)
          | some c =>
              if c.user_id.isSome && c.user_id ≠ some uid then
                (.error (.forbidden "Category does not belong to this user"), db)
              else
                let r := TransactionRepo.update db tid d
                (.ok r.1, r.2)
      | none =>
          let r := TransactionRepo.update db tid d
          (.ok r.1, r.2)

/-- `TransactionService.delete_transaction`: ownership check via
`get_transaction`, then hard delete. -/
def delete_transaction (db : DB) (tid : Nat) (uid : Nat) :
    Except ApiError (Option Transaction) × DB :=
  match get_transaction db tid uid with
  | .error e => (.error e, db)
  | .ok _ =>
      let r := TransactionRepo.delete db tid
      (.ok r.1, r.2)

/-- `TransactionService.get_summary`: the two totals and the balance from the
repository aggregates. -/
def get_summary (db : DB) (uid : Nat) : Summary :=
  { total_income := TransactionRepo.get_total_by_type db uid .income
    total_expenses := TransactionRepo.get_total_by_type db uid .expense
    balance := TransactionRepo.get_user_balance db uid }

end TransactionService

/-- Does the character list start with the pattern? (helper for the SQL
`ILIKE %pattern%` operator). -/
def startsWithCh : List Char → List Char → Bool
  | _, [] => true
  | [], _ :: _ => false
  | h :: hs, p :: ps => h == p && startsWithCh hs ps

/-- Substring containment on character lists. -/
def containsSub : List Char → List Char → Bool
  | [], p => p.isEmpty
  | h :: t, p => startsWithCh (h :: t) p || containsSub t p

/-- The `Category.name.ilike("%combustível%")` filter of fuel analytics:
case-insensitive substring containment of `combustível` in the name. -/
def nameHasCombustivel (s : String) : Bool :=
  containsSub (s.data.map Char.toLower) ("combustível".data)

/-- The `{year, month, ...}` record returned by
`AnalyticsService.get_monthly_summary` (amounts in cents). -/
structure MonthlySummary where
  year : Nat
  month : Nat
  total_income : Int
  income_count : Nat
  total_expenses : Int
  expense_count : Nat
  balance : Int
  total_transactions : Nat
deriving DecidableEq, Repr

/-- One row of the category-breakdown result: the category's display
attributes plus the aggregate over its matching transactions. -/
structure BreakdownRow where
  category_id : Nat
  category_name : String
  category_type : TxType
  category_color : String
  category_icon : Option String
  total : Int
  transaction_count : Nat
deriving DecidableEq, Repr

/-- The record returned by `AnalyticsService.get_fuel_analytics`
(`total_fuel_expenses` in cents, the average as an exact rational). -/
structure FuelAnalytics where
  total_fuel_expenses : Int
  fuel_transaction_count : Nat
  average_fuel_expense : ℚ
deriving DecidableEq, Repr

namespace AnalyticsService

/-- The `WHERE` clause of one monthly aggregate: the user's rows of one type
whose `transaction_date` falls in the given calendar year and month
(`extract("year", ...)` / `extract("month", ...)`). -/
def monthRows (db : DB) (uid : Nat) (ty : TxType) (y m : Nat) :
    List Transaction :=
  db.transactions.filter (fun t =>
    t.user_id == uid && t.type == ty
      && t.transaction_date.year == y && t.transaction_date.month == m)

/-- `AnalyticsService.get_monthly_summary`: the two independent
`(coalesce(sum(amount),0), count(id))` aggregates and the derived fields. -/
def get_monthly_summary (db : DB) (uid : Nat) (y m : Nat) : MonthlySummary :=
  let inc := monthRows db uid .income y m
  let exp := monthRows db uid .expense y m
  let total_income := (inc.map (fun t => t.amount)).sum
  let total_expenses := (exp.map (fun t => t.amount)).sum
  { year := y
    month := m
    total_income := total_income
    income_count := inc.length
    total_expenses := total_expenses
    expense_count := exp.length
    balance := total_income - total_expenses
    total_transactions := inc.length + exp.length }

/-- The optional-filter `WHERE` clauses shared by category breakdown:
owner, optional type (enum values are truthy strings, so `if transaction_type:`
is a `None` test), inclusive optional date bounds. -/
def txMatches (uid : Nat) (ty? : Option TxType) (sd? ed? : Option DT)
    (t : Transaction) : Bool :=
  t.user_id == uid
    && (match ty? with | none => true | some ty => t.type == ty)
    && (match sd? with | none => true | some sd => dtLe sd t.transaction_date)
    && (match ed? with | none => true | some ed => dtLe t.transaction_date ed)

/-- The transactions of one category that survive the breakdown filters —
the rows of the inner join `Transaction.category_id == Category.id` that fall
into the category's group. -/
def breakdownGroup (db : DB) (uid : Nat) (ty? : Option TxType)
    (sd? ed? : Option DT) (c : Category) : List Transaction :=
  db.transactions.filter (fun t =>
    t.category_id == some c.id && txMatches uid ty? sd? ed? t)

/-- `AnalyticsService.get_category_breakdown`: one aggregated row per
category whose group is non-empty (the inner join drops the rest), ordered by
`sum(amount)` descending. -/
def get_category_breakdown (db : DB) (uid : Nat)
    (ty? : Option TxType := none) (sd? : Option DT := none)
    (ed? : Option DT := none) : List BreakdownRow :=
  let rows := db.categories.filterMap (fun c =>
    let g := breakdownGroup db uid ty? sd? ed? c
    if g.isEmpty then none
    else some
      { category_id := c.id
        category_name := c.name
        category_type := c.type
        category_color := c.color
        category_icon := c.icon
        total := (g.map (fun t => t.amount)).sum
        transaction_count := g.length })
  List.insertionSort (fun a b => b.total ≤ a.total) rows

/-- The fuel-category resolution of `get_fuel_analytics`: ids of categories —
of any owner — whose name contains `combustível` case-insensitively and whose
type is expense. -/
def fuel_category_ids (db : DB) : List Nat :=
  (db.categories.filter (fun c =>
    nameHasCombustivel c.name && c.type == .expense)).map (fun c => c.id)

/-- The rows aggregated by `get_fuel_analytics`: the user's transactions whose
category id lies in the resolved set, inside the optional date range. Note
the query does not constrain `Transaction.type`. -/
def fuelRows (db : DB) (uid : Nat) (sd? ed? : Option DT) : List Transaction :=
  db.transactions.filter (fun t =>
    t.user_id == uid
      && (match t.category_id with
          | some c => (fuel_category_ids db).contains c
          | none => false)
      && (match sd? with | none => true | some sd => dtLe sd t.transaction_date)
      && (match ed? with | none => true | some ed => dtLe t.transaction_date ed))

/-- `AnalyticsService.get_fuel_analytics`: the explicit zero record when no
fuel category resolves, otherwise `coalesce`d sum, count and average
(`avg` of an empty set is `coalesce`d to zero). -/
def get_fuel_analytics (db : DB) (uid : Nat) (sd? : Option DT := none)
    (ed? : Option DT := none) : FuelAnalytics :=
  if (fuel_category_ids db).isEmpty then
    { total_fuel_expenses := 0
      fuel_transaction_count := 0
      average_fuel_expense := 0 }
  else
    let ms := fuelRows db uid sd? ed?
    let total := (ms.map (fun t => t.amount)).sum
    { total_fuel_expenses := total
      fuel_transaction_count := ms.length
      average_fuel_expense :=
        if ms.length = 0 then 0 else (total : ℚ) / (ms.length : ℚ) }

end AnalyticsService

/-- `CategoryUpdate` schema (`app/schemas/category.py`): every field optional;
outer `Option` is the fields-set mask, and `icon` (the nullable column) also
carries an explicit-null inner `Option`. -/
structure CategoryUpdate where
  name : Option String := none
  type : Option TxType := none
  color : Option String := none
  icon : Option (Option String) := none
deriving DecidableEq, Repr

/-- The category update request whose change-set is empty. -/
def CategoryUpdate.empty : CategoryUpdate := {}

/-- The `setattr` loop of `BaseRepository.update` on a category row. -/
def applyCategoryUpdate (c : Category) (u : CategoryUpdate) : Category :=
  { c with
    name := u.name.getD c.name
    type := u.type.getD c.type
    color := u.color.getD c.color
    icon := u.icon.getD c.icon }

/-- `BaseRepository.update` specialised to categories (see
`TransactionRepo.update` for the modelling of the identity map). -/
def CategoryRepo.update (db : DB) (cid : Nat) (u : CategoryUpdate) :
    Option Category × DB :=
  match db.categories.find? (fun c => c.id == cid) with
  | none => (none, db)
  | some c =>
      (some (applyCategoryUpdate c u),
        { db with categories :=
            db.categories.map (fun x =>
              if x.id == cid then applyCategoryUpdate x u else x) })

namespace CategoriesApi

/-- The `DELETE /categories/{id}` endpoint
(`app/api/v1/endpoints/categories.py`): 404 when the id is unknown, 403 for a
system category, 403 for another user's category, otherwise repository
delete. On failure the store is untouched. -/
def delete_category (db : DB) (cid : Nat) (uid : Nat) :
    Except ApiError Unit × DB :=
  match CategoryRepo.get_by_id db cid with
  | none => (.error (.notFound "Category not found"), db)
  | some c =>
      if c.is_system then
        (.error (.forbidden "System categories cannot be deleted"), db)
      else if c.user_id ≠ some uid then
        (.error (.forbidden "Category does not belong to this user"), db)
      else
        (.ok (), (CategoryRepo.delete db cid).2)

end CategoriesApi

/-- Whether a service call raised a 404 (not-found) HTTP exception. -/
def resultIs404 {α : Type} : Except ApiError α → Bool
  | .error e => e.is404
  | .ok _ => false

/-- Whether a service call raised a 403 (forbidden) HTTP exception. -/
def resultIs403 {α : Type} : Except ApiError α → Bool
  | .error e => e.is403
  | .ok _ => false

/-- The empty store. -/
def dbEmpty : DB := ⟨[], []⟩

/-- Fixture: user 1's "Pedágio" expense category (id 7). -/
def cPedagio : Category := ⟨7, some 1, "Pedágio", .expense, "#333333", none, false⟩

/-- Fixture: user 1's transaction 3, linked to category 7. -/
def tPedagio : Transaction := ⟨3, 1, some 7, .expense, 1500, none, ⟨2025, 6, 15, 0⟩⟩

/-- Fixture: user 1's transaction 4, no category. -/
def tCorrida : Transaction := ⟨4, 1, none, .income, 2000, none, ⟨2025, 6, 15, 0⟩⟩

/-- Fixture store for the category-delete experiment. -/
def dbDelete : DB := ⟨[cPedagio], [tPedagio, tCorrida]⟩

/-- Fixture: a seeded system category (no owner, `is_system`). -/
def cSys : Category := ⟨1, none, "Gorjetas", .income, "#10B981", none, true⟩

/-- Fixture store holding only the system category. -/
def dbSys : DB := ⟨[cSys], []⟩

/-- Fixture: a create payload whose `category_id` is the falsy integer 0. -/
def reqZeroCat : TransactionCreate := ⟨.expense, 500, none, ⟨2025, 1, 1, 0⟩, some 0⟩

/-- Fixture: user 1's transaction 1 with no category. -/
def tOwn : Transaction := ⟨1, 1, none, .income, 100, none, ⟨2025, 1, 1, 0⟩⟩

/-- Fixture store holding only `tOwn`. -/
def dbOwn : DB := ⟨[], [tOwn]⟩

/-- Fixture: an update payload supplying a dangling `category_id`. -/
def updBadCat : TransactionUpdate := { category_id := some (some 99) }

/-- Fixture: an update payload whose `category_id` is explicitly null. -/
def updNullCat : TransactionUpdate := { category_id := some none }

/-- Fixture: user 1's transaction 2, linked to category 5. -/
def tWithCat : Transaction := ⟨2, 1, some 5, .income, 100, none, ⟨2025, 1, 1, 0⟩⟩

/-- Fixture store holding only `tWithCat` (note: no categories at all, so a
successful category-clearing update also shows no validation happened). -/
def dbWithCat : DB := ⟨[], [tWithCat]⟩

/-- Fixture: the seeded fuel system category. -/
def cFuel : Category := ⟨1, none, "Combustível", .expense, "#EF4444", none, true⟩

/-- Fixtures: two fuel purchases of user 1. -/
def tFuel1 : Transaction := ⟨1, 1, some 1, .expense, 10000, none, ⟨2025, 6, 1, 0⟩⟩

/-- Second fuel purchase fixture. -/
def tFuel2 : Transaction := ⟨2, 1, some 1, .expense, 5000, none, ⟨2025, 6, 2, 0⟩⟩

/-- Fixture store for fuel analytics. -/
def dbFuel : DB := ⟨[cFuel], [tFuel1, tFuel2]⟩

/-- Fixture categories for the breakdown experiment. -/
def cCorridas : Category := ⟨1, some 1, "Corridas", .income, "#111111", none, false⟩

/-- Expense category used by two fixture transactions. -/
def cManut : Category := ⟨2, some 1, "Manutenção", .expense, "#222222", none, false⟩

/-- Category with no transactions at all. -/
def cVazia : Category := ⟨3, some 1, "Vazia", .expense, "#333333", none, false⟩

/-- Fixture store for the breakdown experiment: category 2 aggregates two
rows, category 1 one row, category 3 none. -/
def dbBreak : DB :=
  ⟨[cCorridas, cManut, cVazia],
   [⟨1, 1, some 1, .income, 1000, none, ⟨2025, 3, 1, 0⟩⟩,
    ⟨2, 1, some 2, .expense, 3000, none, ⟨2025, 3, 2, 0⟩⟩,
    ⟨3, 1, some 2, .expense, 500, none, ⟨2025, 3, 3, 0⟩⟩]⟩

theorem applyTransactionUpdate_empty (t : Transaction) :
    applyTransactionUpdate t TransactionUpdate.empty = t := rfl

theorem applyCategoryUpdate_empty (c : Category) :
    applyCategoryUpdate c CategoryUpdate.empty = c := rfl

theorem transaction_update_empty (db : DB) (tid : Nat) :
    TransactionRepo.update db tid TransactionUpdate.empty
      = (TransactionRepo.get_by_id db tid, db) := by
  unfold TransactionRepo.update TransactionRepo.get_by_id
  cases h : db.transactions.find? (fun t => t.id == tid) with
  | none => rfl
  | some t => simp [applyTransactionUpdate_empty]

theorem category_update_empty (db : DB) (cid : Nat) :
    CategoryRepo.update db cid CategoryUpdate.empty
      = (CategoryRepo.get_by_id db cid, db) := by
  unfold CategoryRepo.update CategoryRepo.get_by_id
  cases h : db.categories.find? (fun c => c.id == cid) with
  | none => rfl
  | some c => simp [applyCategoryUpdate_empty]

/-- C9: a partial update assigns exactly the fields present in the request:
every omitted field of a transaction or category keeps its previous value,
and the repository update with an empty change-set returns the stored row and
leaves the store unchanged. -/
theorem C9_partial_update_frame (db : DB) (tid cid : Nat) (t : Transaction)
    (u : TransactionUpdate) (c : Category) (cu : CategoryUpdate) :
    ((u.type = none → (applyTransactionUpdate t u).type = t.type)
      ∧ (u.amount = none → (applyTransactionUpdate t u).amount = t.amount)
      ∧ (u.description = none →
          (applyTransactionUpdate t u).description = t.description)
      ∧ (u.transaction_date = none →
          (applyTransactionUpdate t u).transaction_date = t.transaction_date)
      ∧ (u.category_id = none →
          (applyTransactionUpdate t u).category_id = t.category_id))
    ∧ ((cu.name = none → (applyCategoryUpdate c cu).name = c.name)
      ∧ (cu.type = none → (applyCategoryUpdate c cu).type = c.type)
      ∧ (cu.color = none → (applyCategoryUpdate c cu).color = c.color)
      ∧ (cu.icon = none → (applyCategoryUpdate c cu).icon = c.icon))
    ∧ applyTransactionUpdate t TransactionUpdate.empty = t
    ∧ applyCategoryUpdate c CategoryUpdate.empty = c
    ∧ TransactionRepo.update db tid TransactionUpdate.empty
        = (TransactionRepo.get_by_id db tid, db)
    ∧ CategoryRepo.update db cid CategoryUpdate.empty
        = (CategoryRepo.get_by_id db cid, db) := by
  refine ⟨⟨?_, ?_, ?_, ?_, ?_⟩, ⟨?_, ?_, ?_, ?_⟩,
    applyTransactionUpdate_empty t, applyCategoryUpdate_empty c,
    transaction_update_empty db tid, category_update_empty db cid⟩ <;>
    intro h <;> simp [applyTransactionUpdate, applyCategoryUpdate, h]

/-- Witness for C9 at a concrete store and requests. -/
theorem C9_partial_update_frame_witness :
    (applyTransactionUpdate tWithCat updBadCat).amount = tWithCat.amount
    ∧ TransactionRepo.update dbWithCat 2 TransactionUpdate.empty
        = (some tWithCat, dbWithCat) := by
  have h := C9_partial_update_frame dbWithCat 2 1 tWithCat updBadCat cSys
    CategoryUpdate.empty
  exact ⟨h.1.2.1 rfl, by rw [h.2.2.2.2.1]; decide⟩

/-- C5: the lifetime summary satisfies `balance = total_income -
total_expenses`, the two totals are the exact sums of the user's income and
expense amounts, and on an empty transaction set all three are zero. -/
theorem C5_summary_balance (db : DB) (uid : Nat) :
    (TransactionService.get_summary db uid).balance
        = (TransactionService.get_summary db uid).total_income
          - (TransactionService.get_summary db uid).total_expenses
    ∧ (TransactionService.get_summary db uid).total_income
        = ((db.transactions.filter (fun t =>
            t.user_id == uid && t.type == TxType.income)).map
            (fun t => t.amount)).sum
    ∧ (TransactionService.get_summary db uid).total_expenses
        = ((db.transactions.filter (fun t =>
            t.user_id == uid && t.type == TxType.expense)).map
            (fun t => t.amount)).sum
    ∧ (db.transactions.filter (fun t => t.user_id == uid) = [] →
        TransactionService.get_summary db uid = ⟨0, 0, 0⟩) := by
  refine ⟨rfl, rfl, rfl, fun h => ?_⟩
  have key : ∀ ty, TransactionRepo.rowsByType db uid ty = [] := by
    intro ty
    unfold TransactionRepo.rowsByType
    rw [List.filter_eq_nil_iff]
    intro t ht hpred
    have h2 := List.filter_eq_nil_iff.mp h t ht
    simp only [Bool.and_eq_true] at hpred
    exact h2 hpred.1
  simp [TransactionService.get_summary, TransactionRepo.get_user_balance,
    TransactionRepo.get_total_by_type, key]

/-- Witness for C5 on the empty store. -/
theorem C5_summary_balance_witness :
    TransactionService.get_summary dbEmpty 3 = ⟨0, 0, 0⟩ :=
  (C5_summary_balance dbEmpty 3).2.2.2 rfl

/-- C10: on an owned transaction, an update whose `category_id` is explicitly
null is applied — the stored reference is cleared with no category
validation (no assumption on the store's categories is needed) — while an
update omitting `category_id` leaves the stored reference unchanged. -/
theorem C10_explicit_null_vs_omitted_category (db : DB) (tid uid : Nat)
    (d : TransactionUpdate) (t : Transaction)
    (ht : TransactionRepo.get_by_id db tid = some t)
    (hu : t.user_id = uid) :
    (d.category_id = some none →
        (TransactionService.update_transaction db tid d uid).1
            = .ok (some (applyTransactionUpdate t d))
        ∧ (applyTransactionUpdate t d).category_id = none)
    ∧ (d.category_id = none →
        (TransactionService.update_transaction db tid d uid).1
            = .ok (some (applyTransactionUpdate t d))
        ∧ (applyTransactionUpdate t d).category_id = t.category_id) := by
  have ht' : List.find? (fun x => x.id == tid) db.transactions = some t := ht
  constructor <;> intro hcat <;>
    simp [TransactionService.update_transaction,
      TransactionService.get_transaction, TransactionRepo.get_by_id,
      TransactionRepo.update, ht', hu, hcat, Option.join,
      applyTransactionUpdate]

/-- Witness for C10: explicit null clears the reference of `tWithCat`
(in a store with no categories, so no validation could have run), omitting
keeps it. -/
theorem C10_explicit_null_vs_omitted_category_witness :
    (TransactionService.update_transaction dbWithCat 2 updNullCat 1).1
        = .ok (some (applyTransactionUpdate tWithCat updNullCat))
    ∧ (applyTransactionUpdate tWithCat updNullCat).category_id = none
    ∧ (applyTransactionUpdate tWithCat TransactionUpdate.empty).category_id
        = some 5 := by
  have h := C10_explicit_null_vs_omitted_category dbWithCat 2 1 updNullCat
    tWithCat rfl rfl
  have h2 := C10_explicit_null_vs_omitted_category dbWithCat 2 1
    TransactionUpdate.empty tWithCat rfl rfl
  exact ⟨(h.1 rfl).1, (h.1 rfl).2, by rw [(h2.2 rfl).2]; rfl⟩

/-- C6: every field of the monthly summary is the exact aggregate of the
user's transactions of the matching type whose `transaction_date` falls in
the requested calendar year and month, `balance` and `total_transactions`
satisfy their identities, and a month with no matching transactions yields
the all-zero record rather than an error. -/
theorem C6_monthly_summary (db : DB) (uid y m : Nat) :
    (AnalyticsService.get_monthly_summary db uid y m).year = y
    ∧ (AnalyticsService.get_monthly_summary db uid y m).month = m
    ∧ (AnalyticsService.get_monthly_summary db uid y m).total_income
        = ((AnalyticsService.monthRows db uid .income y m).map
            (fun t => t.amount)).sum
    ∧ (AnalyticsService.get_monthly_summary db uid y m).income_count
        = (AnalyticsService.monthRows db uid .income y m).length
    ∧ (AnalyticsService.get_monthly_summary db uid y m).total_expenses
        = ((AnalyticsService.monthRows db uid .expense y m).map
            (fun t => t.amount)).sum
    ∧ (AnalyticsService.get_monthly_summary db uid y m).expense_count
        = (AnalyticsService.monthRows db uid .expense y m).length
    ∧ (AnalyticsService.get_monthly_summary db uid y m).balance
        = (AnalyticsService.get_monthly_summary db uid y m).total_income
          - (AnalyticsService.get_monthly_summary db uid y m).total_expenses
    ∧ (AnalyticsService.get_monthly_summary db uid y m).total_transactions
        = (AnalyticsService.get_monthly_summary db uid y m).income_count
          + (AnalyticsService.get_monthly_summary db uid y m).expense_count
    ∧ (db.transactions.filter (fun t => t.user_id == uid
          && t.transaction_date.year == y && t.transaction_date.month == m)
            = [] →
        AnalyticsService.get_monthly_summary db uid y m
          = ⟨y, m, 0, 0, 0, 0, 0, 0⟩) := by
  refine ⟨rfl, rfl, rfl, rfl, rfl, rfl, rfl, rfl, fun h => ?_⟩
  have key : ∀ ty, AnalyticsService.monthRows db uid ty y m = [] := by
    intro ty
    unfold AnalyticsService.monthRows
    rw [List.filter_eq_nil_iff]
    intro t ht hpred
    have h2 := List.filter_eq_nil_iff.mp h t ht
    simp only [Bool.and_eq_true] at hpred h2
    exact h2 ⟨⟨hpred.1.1.1, hpred.1.2⟩, hpred.2⟩
  simp [AnalyticsService.get_monthly_summary, key]

/-- Witness for C6: an all-zero month on a store that has a transaction of a
different month. -/
theorem C6_monthly_summary_witness :
    AnalyticsService.get_monthly_summary dbFuel 1 2024 2
      = ⟨2024, 2, 0, 0, 0, 0, 0, 0⟩ :=
  (C6_monthly_summary dbFuel 1 2024 2).2.2.2.2.2.2.2.2 (by decide)

/-- C8: fuel analytics resolves exactly the expense categories whose name
contains "combustível" case-insensitively; with no such category it returns
the explicit zero record, and otherwise the exact sum, count, and
(zero-guarded) average over the user's transactions in those categories and
the optional inclusive date range. -/
theorem C8_fuel_analytics (db : DB) (uid : Nat) (sd? ed? : Option DT) :
    (∀ i, i ∈ AnalyticsService.fuel_category_ids db
        ↔ ∃ c ∈ db.categories, c.id = i ∧ nameHasCombustivel c.name = true
            ∧ c.type = TxType.expense)
    ∧ (AnalyticsService.fuel_category_ids db = [] →
        AnalyticsService.get_fuel_analytics db uid sd? ed? = ⟨0, 0, 0⟩)
    ∧ (AnalyticsService.fuel_category_ids db ≠ [] →
        (AnalyticsService.get_fuel_analytics db uid sd? ed?).total_fuel_expenses
            = ((AnalyticsService.fuelRows db uid sd? ed?).map
                (fun t => t.amount)).sum
        ∧ (AnalyticsService.get_fuel_analytics db uid sd? ed?).fuel_transaction_count
            = (AnalyticsService.fuelRows db uid sd? ed?).length
        ∧ (AnalyticsService.get_fuel_analytics db uid sd? ed?).average_fuel_expense
            = (if (AnalyticsService.fuelRows db uid sd? ed?).length = 0 then 0
               else (((AnalyticsService.fuelRows db uid sd? ed?).map
                  (fun t => t.amount)).sum : ℚ)
                / ((AnalyticsService.fuelRows db uid sd? ed?).length : ℚ))) := by
  refine ⟨fun i => ?_, fun h => ?_, fun h => ?_⟩
  · unfold AnalyticsService.fuel_category_ids
    simp only [List.mem_map, List.mem_filter, Bool.and_eq_true, beq_iff_eq]
    constructor
    · rintro ⟨c, ⟨hc, hn, ht⟩, hid⟩
      exact ⟨c, hc, hid, hn, ht⟩
    · rintro ⟨c, hc, hid, hn, ht⟩
      exact ⟨c, ⟨hc, hn, ht⟩, hid⟩
  · simp [AnalyticsService.get_fuel_analytics, h]
  · have h2 : (AnalyticsService.fuel_category_ids db).isEmpty = false := by
      simpa [List.isEmpty_iff] using h
    refine ⟨?_, ?_, ?_⟩ <;>
      simp [AnalyticsService.get_fuel_analytics, h2, Function.comp]
    rfl

/-- Witness for C8: the zero record on the empty store, and the aggregates on
a store with one fuel category and two purchases. -/
theorem C8_fuel_analytics_witness :
    AnalyticsService.get_fuel_analytics dbEmpty 1 none none = ⟨0, 0, 0⟩
    ∧ (AnalyticsService.get_fuel_analytics dbFuel 1 none none).total_fuel_expenses
        = 15000
    ∧ (AnalyticsService.get_fuel_analytics dbFuel 1 none none).average_fuel_expense
        = 7500 := by
  have h0 := (C8_fuel_analytics dbEmpty 1 none none).2.1 rfl
  have h := (C8_fuel_analytics dbFuel 1 none none).2.2 (by decide)
  have hr : AnalyticsService.fuelRows dbFuel 1 none none = [tFuel1, tFuel2] := by
    decide
  refine ⟨h0, by rw [h.1]; decide, ?_⟩
  rw [h.2.2, hr]
  norm_num [tFuel1, tFuel2]

/-- C2 counterexample: the system category `cSys` ("Gorjetas", income) is
visible to user 1 — it is returned by the listing — yet the name+type
collision lookup for user 1 does not find it, because its `WHERE` clause
requires `user_id == 1` and has no `is_system` branch. -/
theorem C2_collision_lookup_misses_visible_system_category :
    CategoryRepo.visibleTo 1 cSys = true
    ∧ cSys ∈ CategoryRepo.get_user_categories dbSys 1 0 100
    ∧ cSys.name = "Gorjetas" ∧ cSys.type = TxType.income
    ∧ CategoryRepo.get_by_user_and_name dbSys 1 "Gorjetas" TxType.income
        = none := by
  decide

/-- C2 amended: the listing and by-type reads apply the two-branch
visibility predicate (`user_id == U` or `is_system`), but the name+type
collision lookup matches only categories whose `user_id` equals `U`: it
finds a category exactly when one with that name and type is owned by `U`,
so a visible system category with the same name and type is not found. -/
theorem C2_visibility_amended (db : DB) (u skip limit : Nat) (name : String)
    (ty : TxType) :
    (∀ c, c ∈ CategoryRepo.get_user_categories db u skip limit →
        c ∈ db.categories ∧ CategoryRepo.visibleTo u c = true)
    ∧ (db.categories.length ≤ limit →
        ∀ c, c ∈ CategoryRepo.get_user_categories db u 0 limit
          ↔ c ∈ db.categories ∧ CategoryRepo.visibleTo u c = true)
    ∧ (∀ c, c ∈ CategoryRepo.get_by_type db u ty
        ↔ c ∈ db.categories ∧ CategoryRepo.visibleTo u c = true ∧ c.type = ty)
    ∧ ((CategoryRepo.get_by_user_and_name db u name ty).isSome
        ↔ ∃ c ∈ db.categories,
            c.user_id = some u ∧ c.name = name ∧ c.type = ty)
    ∧ (∀ c, CategoryRepo.get_by_user_and_name db u name ty = some c →
        c ∈ db.categories ∧ c.user_id = some u ∧ c.name = name
          ∧ c.type = ty) := by
  refine ⟨fun c hc => ?_, fun hlen c => ?_, fun c => ?_, ?_, fun c hc => ?_⟩
  · unfold CategoryRepo.get_user_categories at hc
    have h1 := List.mem_of_mem_drop (List.mem_of_mem_take hc)
    exact (List.mem_filter.mp h1).imp id (fun h => h)
  · unfold CategoryRepo.get_user_categories
    rw [List.drop_zero,
      List.take_of_length_le
        (le_trans (List.length_filter_le _ _) hlen)]
    exact List.mem_filter
  · unfold CategoryRepo.get_by_type
    rw [List.mem_filter]
    simp [CategoryRepo.visibleTo, and_assoc]
  · unfold CategoryRepo.get_by_user_and_name
    rw [List.find?_isSome]
    simp [and_assoc]
  · unfold CategoryRepo.get_by_user_and_name at hc
    have h1 := List.mem_of_find?_eq_some hc
    have h2 := List.find?_some hc
    simp only [Bool.and_eq_true, beq_iff_eq] at h2
    exact ⟨h1, h2.1.1, h2.1.2, h2.2⟩

/-- Witness for C2 amended: the by-type characterization and the collision
lookup evaluated on the system-category store. -/
theorem C2_visibility_amended_witness :
    (cSys ∈ CategoryRepo.get_by_type dbSys 1 TxType.income
      ↔ cSys ∈ dbSys.categories ∧ CategoryRepo.visibleTo 1 cSys = true
          ∧ cSys.type = TxType.income)
    ∧ cSys ∈ CategoryRepo.get_user_categories dbSys 1 0 100 := by
  have h := C2_visibility_amended dbSys 1 0 100 "Gorjetas" TxType.income
  exact ⟨h.2.2.1 cSys, ((h.2.1 (by decide) cSys).mpr (by decide))⟩

/-- C1 evaluated at the failing input: user 1 deletes their own category 7.
The delete succeeds, but transaction 3 — which referenced category 7 — is
deleted along with it instead of being kept with a null category reference:
the ORM `cascade="all, delete-orphan"` on `Category.transactions` overrides
the `ondelete="SET NULL"` foreign key the endpoint's docstring promises. -/
theorem C1_category_delete_deletes_linked_transactions :
    (CategoriesApi.delete_category dbDelete 7 1).1 = .ok ()
    ∧ TransactionRepo.get_by_id dbDelete 3 = some tPedagio
    ∧ tPedagio.category_id = some 7
    ∧ TransactionRepo.get_by_id (CategoriesApi.delete_category dbDelete 7 1).2 3
        = none
    ∧ (CategoriesApi.delete_category dbDelete 7 1).2.transactions
        = [tCorrida] :=
  ⟨rfl, rfl, rfl, rfl, rfl⟩

/-- C3 evaluated at the failing input: a create request that supplies
`category_id = 0` against a store with no categories. The source's guard
`if transaction_data.category_id:` is falsy for `0`, so no category check
runs: instead of the promised 404, the service delegates to the repository
create, producing a transaction that references the nonexistent category 0. -/
theorem C3_zero_category_id_skips_validation :
    reqZeroCat.category_id = some 0
    ∧ CategoryRepo.get_by_id dbEmpty 0 = none
    ∧ TransactionService.create_transaction dbEmpty reqZeroCat 1
        = .ok (⟨1, 1, some 0, .expense, 500, none, ⟨2025, 1, 1, 0⟩⟩,
               ⟨[], [⟨1, 1, some 0, .expense, 500, none, ⟨2025, 1, 1, 0⟩⟩]⟩) :=
  ⟨rfl, rfl, rfl⟩

/-- C4 counterexample: transaction 1 exists and is owned by the requesting
user 1, yet the update fails with a 404 — the payload's `category_id` (99)
resolves to no category — so "fails with not-found exactly when no
transaction with id T exists" is false for the update operation. -/
theorem C4_update_404_with_existing_owned_transaction :
    TransactionRepo.get_by_id dbOwn 1 = some tOwn
    ∧ tOwn.user_id = 1
    ∧ resultIs404 (TransactionService.update_transaction dbOwn 1 updBadCat 1).1
        = true := by
  decide

/-- C4 amended: for get and delete, 404 holds exactly when no transaction
with the id exists and 403 exactly when it exists with a different owner;
update behaves the same on transaction resolution — checked before any
mutation — but can additionally fail 404 when its payload supplies a
`category_id` that resolves to no category, and 403 when the supplied
category is owned by another user; on every failure the store is unchanged. -/
theorem C4_ownership_errors_amended (db : DB) (tid uid : Nat)
    (d : TransactionUpdate) :
    (resultIs404 (TransactionService.get_transaction db tid uid) = true
        ↔ TransactionRepo.get_by_id db tid = none)
    ∧ (resultIs403 (TransactionService.get_transaction db tid uid) = true
        ↔ ∃ t, TransactionRepo.get_by_id db tid = some t ∧ t.user_id ≠ uid)
    ∧ (resultIs404 (TransactionService.delete_transaction db tid uid).1 = true
        ↔ TransactionRepo.get_by_id db tid = none)
    ∧ (resultIs403 (TransactionService.delete_transaction db tid uid).1 = true
        ↔ ∃ t, TransactionRepo.get_by_id db tid = some t ∧ t.user_id ≠ uid)
    ∧ (∀ e, (TransactionService.delete_transaction db tid uid).1 = .error e →
        (TransactionService.delete_transaction db tid uid).2 = db)
    ∧ (resultIs404 (TransactionService.update_transaction db tid d uid).1 = true
        ↔ (TransactionRepo.get_by_id db tid = none
            ∨ ∃ t, TransactionRepo.get_by_id db tid = some t
                ∧ t.user_id = uid
                ∧ ∃ cid, d.category_id.join = some cid
                    ∧ CategoryRepo.get_by_id db cid = none))
    ∧ (resultIs403 (TransactionService.update_transaction db tid d uid).1 = true
        ↔ ((∃ t, TransactionRepo.get_by_id db tid = some t ∧ t.user_id ≠ uid)
            ∨ ∃ t, TransactionRepo.get_by_id db tid = some t
                ∧ t.user_id = uid
                ∧ ∃ cid c, d.category_id.join = some cid
                    ∧ CategoryRepo.get_by_id db cid = some c
                    ∧ c.user_id ≠ none ∧ c.user_id ≠ some uid))
    ∧ (∀ e, (TransactionService.update_transaction db tid d uid).1 = .error e →
        (TransactionService.update_transaction db tid d uid).2 = db) := by
  cases hF : TransactionRepo.get_by_id db tid with
  | none =>
      simp [TransactionService.get_transaction,
        TransactionService.delete_transaction,
        TransactionService.update_transaction, hF, resultIs404, resultIs403,
        ApiError.is404, ApiError.is403]
  | some t =>
      by_cases hu : t.user_id = uid
      · cases hj : d.category_id.bind (fun a => a) with
        | none =>
            simp [TransactionService.get_transaction,
              TransactionService.delete_transaction,
              TransactionService.update_transaction, hF, hu, hj,
              resultIs404, resultIs403, ApiError.is404, ApiError.is403]
        | some cid =>
            cases hc : CategoryRepo.get_by_id db cid with
            | none =>
                simp [TransactionService.get_transaction,
                  TransactionService.delete_transaction,
                  TransactionService.update_transaction, hF, hu, hj, hc,
                  resultIs404, resultIs403, ApiError.is404, ApiError.is403]
            | some c =>
                rcases hcu : c.user_id with - | w
                · simp [TransactionService.get_transaction,
                    TransactionService.delete_transaction,
                    TransactionService.update_transaction, hF, hu, hj, hc,
                    hcu, resultIs404, resultIs403, ApiError.is404,
                    ApiError.is403]
                · by_cases hw : w = uid <;>
                    simp [TransactionService.get_transaction,
                      TransactionService.delete_transaction,
                      TransactionService.update_transaction, hF, hu, hj, hc,
                      hcu, hw, resultIs404, resultIs403, ApiError.is404,
                      ApiError.is403]
      · simp [TransactionService.get_transaction,
          TransactionService.delete_transaction,
          TransactionService.update_transaction, hF, hu, resultIs404,
          resultIs403, ApiError.is404, ApiError.is403]

/-- Witness for C4 amended: concrete 404 on a missing id, concrete 403 for a
foreign owner, and the on-failure frame condition, on the one-row store. -/
theorem C4_ownership_errors_amended_witness :
    resultIs404 (TransactionService.get_transaction dbOwn 99 1) = true
    ∧ resultIs403 (TransactionService.get_transaction dbOwn 1 2) = true
    ∧ (TransactionService.update_transaction dbOwn 1 updBadCat 1).2 = dbOwn := by
  have h99 := C4_ownership_errors_amended dbOwn 99 1 updBadCat
  have h12 := C4_ownership_errors_amended dbOwn 1 2 updBadCat
  have h11 := C4_ownership_errors_amended dbOwn 1 1 updBadCat
  refine ⟨h99.1.mpr rfl, h12.2.1.mpr ⟨tOwn, rfl, by decide⟩, ?_⟩
  exact h11.2.2.2.2.2.2.2 (.notFound "Category not found") rfl

/-- C7: every breakdown row comes from a category with at least one matching
transaction and aggregates exactly that category's matching set under the
current filters; every category with a matching transaction contributes a
row; the rows are ordered by total descending; and no row aggregates zero
transactions. -/
theorem C7_category_breakdown (db : DB) (uid : Nat) (ty? : Option TxType)
    (sd? ed? : Option DT) :
    (∀ r ∈ AnalyticsService.get_category_breakdown db uid ty? sd? ed?,
        ∃ c ∈ db.categories,
          r.category_id = c.id ∧ r.category_name = c.name
          ∧ r.category_type = c.type ∧ r.category_color = c.color
          ∧ r.category_icon = c.icon
          ∧ AnalyticsService.breakdownGroup db uid ty? sd? ed? c ≠ []
          ∧ r.total = ((AnalyticsService.breakdownGroup db uid ty? sd? ed? c).map
              (fun t => t.amount)).sum
          ∧ r.transaction_count
              = (AnalyticsService.breakdownGroup db uid ty? sd? ed? c).length)
    ∧ (∀ c ∈ db.categories,
        AnalyticsService.breakdownGroup db uid ty? sd? ed? c ≠ [] →
        ∃ r ∈ AnalyticsService.get_category_breakdown db uid ty? sd? ed?,
          r.category_id = c.id
          ∧ r.total = ((AnalyticsService.breakdownGroup db uid ty? sd? ed? c).map
              (fun t => t.amount)).sum
          ∧ r.transaction_count
              = (AnalyticsService.breakdownGroup db uid ty? sd? ed? c).length)
    ∧ (AnalyticsService.get_category_breakdown db uid ty? sd? ed?).Pairwise
        (fun a b => b.total ≤ a.total)
    ∧ (∀ r ∈ AnalyticsService.get_category_breakdown db uid ty? sd? ed?,
        r.transaction_count ≠ 0) := by
  have hmem : ∀ r, r ∈ AnalyticsService.get_category_breakdown db uid ty? sd? ed?
      ↔ ∃ c ∈ db.categories,
        (let grp := AnalyticsService.breakdownGroup db uid ty? sd? ed? c
         if grp.isEmpty then none
         else some { category_id := c.id, category_name := c.name,
                     category_type := c.type, category_color := c.color,
                     category_icon := c.icon,
                     total := (grp.map (fun t => t.amount)).sum,
                     transaction_count := grp.length }) = some r := by
    intro r
    unfold AnalyticsService.get_category_breakdown
    rw [List.mem_insertionSort, List.mem_filterMap]
  refine ⟨?_, ?_, ?_, ?_⟩
  · intro r hr
    obtain ⟨c, hc, hfc⟩ := (hmem r).mp hr
    by_cases hgr : AnalyticsService.breakdownGroup db uid ty? sd? ed? c = []
    · simp [hgr] at hfc
    · simp only [List.isEmpty_iff, hgr, if_false, Option.some.injEq] at hfc
      refine ⟨c, hc, ?_⟩
      rw [← hfc]
      exact ⟨rfl, rfl, rfl, rfl, rfl, hgr, rfl, rfl⟩
  · intro c hc hne
    refine ⟨{ category_id := c.id, category_name := c.name,
              category_type := c.type, category_color := c.color,
              category_icon := c.icon,
              total := ((AnalyticsService.breakdownGroup db uid ty? sd? ed? c).map
                (fun t => t.amount)).sum,
              transaction_count :=
                (AnalyticsService.breakdownGroup db uid ty? sd? ed? c).length },
            (hmem _).mpr ⟨c, hc, ?_⟩, rfl, rfl, rfl⟩
    simp [List.isEmpty_iff, hne]
  · unfold AnalyticsService.get_category_breakdown
    haveI : IsTotal BreakdownRow (fun a b => b.total ≤ a.total) :=
      ⟨fun a b => le_total b.total a.total⟩
    haveI : IsTrans BreakdownRow (fun a b => b.total ≤ a.total) :=
      ⟨fun _ _ _ hab hbc => le_trans hbc hab⟩
    exact List.sorted_insertionSort _ _
  · intro r hr
    obtain ⟨c, hc, hfc⟩ := (hmem r).mp hr
    by_cases hgr : AnalyticsService.breakdownGroup db uid ty? sd? ed? c = []
    · simp [hgr] at hfc
    · simp only [List.isEmpty_iff, hgr, if_false, Option.some.injEq] at hfc
      rw [← hfc]
      simp [List.length_eq_zero, hgr]

/-- Witness for C7 on a store with two used categories and one unused one:
the "Manutenção" category contributes a row aggregating its two expenses. -/
theorem C7_category_breakdown_witness :
    ∃ r ∈ AnalyticsService.get_category_breakdown dbBreak 1 none none none,
      r.category_id = 2 ∧ r.total = 3500 ∧ r.transaction_count = 2 := by
  obtain ⟨r, hr, h1, h2, h3⟩ :=
    (C7_category_breakdown dbBreak 1 none none none).2.1 cManut
      (by decide) (by decide)
  exact ⟨r, hr, h1.trans (by decide), h2.trans (by decide),
    h3.trans (by decide)⟩

end DriverFinance
